import Mathlib

/-!
Verification of the ParkGenius wait-time estimation engine.

This file gives a shallow embedding, over `ℚ`, of the engine implemented in
the repository's predictions and weather route modules: the heuristic
`predictWaitTime`, its wrapper `generateWaitTimePrediction`, the
alternative-attraction lookup `findAlternativeAttractions`, the factor list
`generatePredictionFactors`, and the weather `calculateComfortIndex`.

Modelling conventions:
* JavaScript numbers are modelled as rationals (`ℚ`); `Math.round` is
  `jsRound` (round half toward +∞, i.e. `⌊x + 1/2⌋`).
* JavaScript's `x || d` on a possibly-missing number (`null`/`undefined`/`0`
  all fall back to the default) is `jsOr`.
* Wall-clock projection (`new Date(now + m*60000).getHours()/getDay()`) is
  abstracted by passing the projected hour-of-day and day-of-week (for the
  per-window loop, a `clock : ℤ → ℕ × ℕ` mapping a window to that pair).
* `Math.random()` is an explicit parameter `U` (one draw per window).
* Each database read is an explicit parameter holding its result: the
  attraction row as `Option`, the history read as `Except Unit _` (the code
  checks its error flag and bails out), the weather read as `Option` (the
  code ignores its error flag), and the attractions table used by the
  alternatives query as a plain list.
-/

namespace ParkGenius

/-- JavaScript `Math.round`: round half toward `+∞`, as a rational. -/
def jsRound (x : ℚ) : ℚ := ((⌊x + 1/2⌋ : ℤ) : ℚ)

/-- JavaScript `Math.round(x * 100) / 100`: round to two decimal places. -/
def jsRound2 (x : ℚ) : ℚ := ((⌊x * 100 + 1/2⌋ : ℤ) : ℚ) / 100

/-- JavaScript `x || d` for a possibly-absent number: `null`/`undefined` and
`0` are falsy, so both fall back to the default `d`. -/
def jsOr (x : Option ℚ) (d : ℚ) : ℚ :=
  match x with
  | none => d
  | some v => if v = 0 then d else v

/-- An attractions-table row, restricted to the columns the engine reads:
`id`, `park_id`, `type`, `current_status`, `wait_time`, and
`details?.thrill_level`. -/
structure AttractionRow where
  id : String
  parkId : String
  ty : String
  currentStatus : String
  waitTime : Option ℚ
  thrillLevel : Option ℚ
deriving DecidableEq

/-- A wait-time history observation, restricted to what `predictWaitTime`
reads: the hour-of-day of its timestamp (`new Date(h.timestamp).getHours()`)
and `h.wait_minutes`. -/
structure Observation where
  hour : ℕ
  waitMinutes : ℚ
deriving DecidableEq

/-- A weather snapshot (`current_conditions`), restricted to the fields the
engine reads: `temperature` and `precipitation`, each possibly absent. -/
structure Weather where
  temperature : Option ℚ
  precipitation : Option ℚ
deriving DecidableEq

/-! ### Comfort index (weather route, `calculateComfortIndex`) -/

/-- `calculateComfortIndex(temperature, humidity, windSpeed)` from the
weather route: Celsius input, Fahrenheit-based temperature penalty,
humidity penalty, wind multiplier, then `Math.max(0, Math.min(100,
Math.round(comfort)))`. -/
def calculateComfortIndex (temperature humidity windSpeed : ℚ) : ℚ :=
  let tempF := temperature * 9 / 5 + 32
  let comfort : ℚ := 100
  let comfort := if tempF < 60 ∨ 90 < tempF then comfort - |75 - tempF| * 2 else comfort
  let comfort := if humidity < 30 ∨ 70 < humidity then comfort - |50 - humidity| * (1/2) else comfort
  let windChillFactor := if 5 < windSpeed then max (9/10) (1 - windSpeed * (2/100)) else 1
  let comfort := comfort * windChillFactor
  max 0 (min 100 (jsRound comfort))

/-- Modelled from the spec's words (§4.2 comfort index), for refinement
comparison with `calculateComfortIndex`: start at 100; if `tempF` outside
`[60,90]` subtract `2·|75 − tempF|`; if humidity outside `[30,70]` subtract
`0.5·|50 − humidity|`; if wind speed > 5 multiply by
`max(0.9, 1 − 0.02·windSpeed)`; clamp to `[0,100]` and round. -/
def comfortIndexSpec (temperature humidity windSpeed : ℚ) : ℚ :=
  let tempF := temperature * 9 / 5 + 32
  let score : ℚ := 100
  let score := if ¬(60 ≤ tempF ∧ tempF ≤ 90) then score - 2 * |75 - tempF| else score
  let score := if ¬(30 ≤ humidity ∧ humidity ≤ 70) then score - (1/2) * |50 - humidity| else score
  let score := if 5 < windSpeed then score * max (9/10) (1 - (2/100) * windSpeed) else score
  jsRound (max 0 (min 100 score))

/-! ### Wait-time prediction engine (predictions route) -/

/-- `similarTimes` from `predictWaitTime`: the observations of the history
whose hour-of-day is within ±1 of the projected hour
(`Math.abs(historyTime.getHours() - hour) <= 1`). -/
def similarTimes (history : List Observation) (hour : ℕ) : List Observation :=
  history.filter fun h => decide (|(h.hour : ℤ) - (hour : ℤ)| ≤ 1)

/-- Steps 1–5 of `predictWaitTime`: base wait with the time-of-day,
day-of-week and thrill-level adjustments applied in the source's order. -/
def preWeather (currentWait : ℚ) (hour dayOfWeek : ℕ) (attraction : AttractionRow) : ℚ :=
  let prediction := currentWait
  let prediction :=
    if 11 ≤ hour ∧ hour ≤ 15 then prediction * (13/10)
    else if 16 ≤ hour ∧ hour ≤ 20 then prediction * (11/10)
    else if hour ≤ 9 ∨ 21 ≤ hour then prediction * (7/10)
    else prediction
  let prediction := if dayOfWeek = 0 ∨ dayOfWeek = 6 then prediction * (12/10) else prediction
  let thrillLevel := jsOr attraction.thrillLevel 3
  if 4 ≤ thrillLevel then prediction * (11/10) else prediction

/-- Steps 1–6 of `predictWaitTime` (base wait, time-of-day, day-of-week,
thrill-level and weather adjustments): the pre-blend prediction and
confidence pair. -/
def preBlend (currentWait : ℚ) (hour dayOfWeek : ℕ) (weather : Option Weather)
    (attraction : AttractionRow) : ℚ × ℚ :=
  let prediction := preWeather currentWait hour dayOfWeek attraction
  let confidence : ℚ := 8/10
  match weather with
  | none => (prediction, confidence)
  | some w =>
    let temp := jsOr w.temperature 25
    let precipitation := jsOr w.precipitation 0
    let prediction :=
      if 30 < temp then
        (if attraction.ty = "dark_ride" then prediction * (12/10) else prediction * (9/10))
      else prediction
    if 0 < precipitation then
      if attraction.ty = "dark_ride" ∨ attraction.ty = "show" then
        (prediction * (15/10), confidence * (9/10))
      else (prediction * (6/10), confidence * (8/10))
    else (prediction, confidence)

/-- Step 7 of `predictWaitTime`: the historical pattern-matching block
(`if (history.length > 0) { ... }`), applied to the pre-blend pair. -/
def applyHistory (pc : ℚ × ℚ) (history : List Observation) (hour : ℕ) : ℚ × ℚ :=
  if 0 < history.length then
    let st := similarTimes history hour
    if 0 < st.length then
      let avgHistoricalWait := (st.map Observation.waitMinutes).sum / (st.length : ℚ)
      (pc.1 * (7/10) + avgHistoricalWait * (3/10), pc.2 * (11/10))
    else (pc.1, pc.2 * (9/10))
  else pc

/-- Steps 1–7 of `predictWaitTime`: the pre-jitter, pre-clamp prediction and
confidence. -/
def predictRaw (currentWait : ℚ) (hour dayOfWeek : ℕ) (history : List Observation)
    (weather : Option Weather) (attraction : AttractionRow) : ℚ × ℚ :=
  applyHistory (preBlend currentWait hour dayOfWeek weather attraction) history hour

/-- Full `predictWaitTime` (predictions route): jitter by
`1 + (U − 0.5)·0.1` where `U` is the `Math.random()` draw, clamp the
prediction to `[0,180]` after rounding, clamp confidence to `[0.3,1]` and
round it to two decimals. The projected hour-of-day and day-of-week stand
for `futureTime.getHours()` / `futureTime.getDay()`. -/
def predictWaitTime (currentWait : ℚ) (hour dayOfWeek : ℕ) (history : List Observation)
    (weather : Option Weather) (attraction : AttractionRow) (U : ℚ) : ℚ × ℚ :=
  let pc := predictRaw currentWait hour dayOfWeek history weather attraction
  let randomFactor := 1 + (U - 1/2) * (1/10)
  let prediction := pc.1 * randomFactor
  let prediction := max 0 (min 180 (jsRound prediction))
  let confidence := max (3/10) (min 1 pc.2)
  (prediction, jsRound2 confidence)

/-- `generatePredictionFactors` (predictions route): the contributing-factor
tags, computed from the raw (non-defaulted) fields and from the current
hour/day (`new Date()`), not the projected ones. -/
def generatePredictionFactors (history : List Observation) (weather : Option Weather)
    (attraction : AttractionRow) (nowHour nowDay : ℕ) : List String :=
  let _ := history

  let factors := ["historical_patterns", "time_of_day"]
  let factors :=
    match weather with
    | none => factors
    | some w =>
      let factors := factors ++ ["weather_conditions"]
      let factors :=
        if (match w.precipitation with | some p => decide (0 < p) | none => false) then
          factors ++ ["precipitation"]
        else factors
      if (match w.temperature with | some t => decide (30 < t) || decide (t < 10) | none => false) then
        factors ++ ["temperature_extreme"]
      else factors
  let factors :=
    if (match attraction.thrillLevel with | some t => decide (4 ≤ t) | none => false) then
      factors ++ ["high_thrill_attraction"]
    else factors
  let factors := if nowDay = 0 ∨ nowDay = 6 then factors ++ ["weekend"] else factors
  if 11 ≤ nowHour ∧ nowHour ≤ 15 then factors ++ ["peak_hours"] else factors

/-- Ordering used by the alternatives query (`order('wait_time', ascending)`). -/
def waitLe (a b : AttractionRow) : Prop := a.waitTime.getD 0 ≤ b.waitTime.getD 0

instance : DecidableRel waitLe := fun a b =>
  inferInstanceAs (Decidable (a.waitTime.getD 0 ≤ b.waitTime.getD 0))

instance : IsTotal AttractionRow waitLe :=
  ⟨fun a b => le_total (a.waitTime.getD 0) (b.waitTime.getD 0)⟩

instance : IsTrans AttractionRow waitLe := ⟨fun _ _ _ => le_trans⟩

/-- The rows produced by the alternatives query of
`findAlternativeAttractions`: same park, same type, status open, wait
strictly below the queried current wait (a SQL `lt` never matches a null
column), ordered ascending by wait, limited to 3. -/
def alternativeRows (db : List AttractionRow) (parkId ty : String) (currentWait : ℚ) :
    List AttractionRow :=
  (List.insertionSort waitLe
    (db.filter fun r =>
      decide (r.parkId = parkId) && decide (r.ty = ty) &&
      decide (r.currentStatus = "open") &&
      (match r.waitTime with | some wt => decide (wt < currentWait) | none => false))).take 3

/-- `findAlternativeAttractions` (predictions route): the identifiers of the
rows returned by the alternatives query. -/
def findAlternativeAttractions (db : List AttractionRow) (parkId ty : String)
    (currentWait : ℚ) : List String :=
  (alternativeRows db parkId ty currentWait).map AttractionRow.id

/-- The `Prediction` output of `generateWaitTimePrediction` (the
`last_updated` wall-clock string is omitted from the model). The
`predictions` field is the per-window mapping, keyed by the requested
window. -/
structure Prediction where
  attractionId : String
  currentWait : ℚ
  predictions : List (ℤ × ℚ × ℚ)
  factors : List String
  alternativeAttractions : List String
  confidenceInterval : String
deriving DecidableEq

/-- `generateWaitTimePrediction` (predictions route). Parameters hold the
results of the three reads: `attr` is the attraction lookup (`none` on
error or missing row — the code returns null), `histRes` the history read
(the code checks its error flag and returns null on error, else falls back
to `[]` when the data is null), `weatherRes` the weather read (its error
flag is ignored; a missing row yields `none`). `clock m` is the projected
(hour, day) for window `m`, `draw m` the `Math.random()` draw of that
window's `predictWaitTime` call, and `db` the attractions table queried by
`findAlternativeAttractions`. -/
def generateWaitTimePrediction (attr : Option AttractionRow)
    (histRes : Except Unit (List Observation)) (weatherRes : Option Weather)
    (timeWindows : List ℤ) (clock : ℤ → ℕ × ℕ) (nowHour nowDay : ℕ)
    (draw : ℤ → ℚ) (db : List AttractionRow) : Option Prediction :=
  match attr with
  | none => none
  | some attraction =>
    match histRes with
    | Except.error _ => none
    | Except.ok waitTimeHistory =>
      let currentWait := jsOr attraction.waitTime 0
      some
        { attractionId := attraction.id
          currentWait := currentWait
          predictions := timeWindows.map fun minutes =>
            (minutes,
              predictWaitTime currentWait (clock minutes).1 (clock minutes).2
                waitTimeHistory weatherRes attraction (draw minutes))
          factors := generatePredictionFactors waitTimeHistory weatherRes attraction nowHour nowDay
          alternativeAttractions :=
            findAlternativeAttractions db attraction.parkId attraction.ty currentWait
          confidenceInterval := "±10 minutes" }

/-! ### Multiplicative normal form of the pre-blend stage -/

/-- Time-of-day multiplier of `predictWaitTime` (×1.3 peak, ×1.1 evening,
×0.7 early/late, ×1 otherwise). -/
def timeFactor (hour : ℕ) : ℚ :=
  if 11 ≤ hour ∧ hour ≤ 15 then 13/10
  else if 16 ≤ hour ∧ hour ≤ 20 then 11/10
  else if hour ≤ 9 ∨ 21 ≤ hour then 7/10
  else 1

/-- Day-of-week multiplier (×1.2 on Saturday/Sunday). -/
def dayFactor (d : ℕ) : ℚ := if d = 0 ∨ d = 6 then 12/10 else 1

/-- Thrill-level multiplier (×1.1 when the defaulted thrill level is ≥ 4). -/
def thrillFactor (attraction : AttractionRow) : ℚ :=
  if 4 ≤ jsOr attraction.thrillLevel 3 then 11/10 else 1

/-- Hot-weather multiplier (temperature > 30 °C). -/
def tempPredFactor (w : Weather) (attraction : AttractionRow) : ℚ :=
  if 30 < jsOr w.temperature 25 then
    (if attraction.ty = "dark_ride" then 12/10 else 9/10)
  else 1

/-- Precipitation multiplier on the prediction (>0 mm). -/
def rainPredFactor (w : Weather) (attraction : AttractionRow) : ℚ :=
  if 0 < jsOr w.precipitation 0 then
    (if attraction.ty = "dark_ride" ∨ attraction.ty = "show" then 15/10 else 6/10)
  else 1

/-- Precipitation multiplier on the confidence (>0 mm). -/
def rainConfFactor (w : Weather) (attraction : AttractionRow) : ℚ :=
  if 0 < jsOr w.precipitation 0 then
    (if attraction.ty = "dark_ride" ∨ attraction.ty = "show" then 9/10 else 8/10)
  else 1

/-! ### Sample data used by witnesses and counterexamples -/

/-- A roller-coaster attraction row: current wait 40, thrill level 5. -/
def attrA : AttractionRow :=
  { id := "a1", parkId := "p1", ty := "roller_coaster", currentStatus := "open",
    waitTime := some 40, thrillLevel := some 5 }

/-- A water-ride attraction row with zero current wait. -/
def waterAttr : AttractionRow :=
  { id := "w1", parkId := "p1", ty := "water_ride", currentStatus := "open",
    waitTime := some 0, thrillLevel := some 2 }

/-- A small attractions table for the alternatives-lookup witness. -/
def dbEx : List AttractionRow :=
  [ { id := "q", parkId := "p1", ty := "roller_coaster", currentStatus := "open",
      waitTime := some 40, thrillLevel := some 5 },
    { id := "b1", parkId := "p1", ty := "roller_coaster", currentStatus := "open",
      waitTime := some 10, thrillLevel := some 4 },
    { id := "b2", parkId := "p1", ty := "roller_coaster", currentStatus := "open",
      waitTime := some 30, thrillLevel := some 3 },
    { id := "b3", parkId := "p1", ty := "roller_coaster", currentStatus := "closed",
      waitTime := some 5, thrillLevel := some 3 },
    { id := "b4", parkId := "p2", ty := "roller_coaster", currentStatus := "open",
      waitTime := some 5, thrillLevel := some 3 },
    { id := "b5", parkId := "p1", ty := "water_ride", currentStatus := "open",
      waitTime := some 5, thrillLevel := some 2 },
    { id := "b6", parkId := "p1", ty := "roller_coaster", currentStatus := "open",
      waitTime := some 20, thrillLevel := some 3 },
    { id := "b7", parkId := "p1", ty := "roller_coaster", currentStatus := "open",
      waitTime := some 25, thrillLevel := some 3 } ]

/-! ### Helper lemmas -/

theorem jsRound_mono {x y : ℚ} (h : x ≤ y) : jsRound x ≤ jsRound y := by
  unfold jsRound
  exact_mod_cast Int.floor_mono (by linarith)

theorem jsRound_zero : jsRound 0 = 0 := by norm_num [jsRound]

theorem jsRound_hundred : jsRound 100 = 100 := by norm_num [jsRound]

/-- Clamping to `[0,100]` commutes with `jsRound`. -/
theorem clamp_jsRound (x : ℚ) :
    max 0 (min 100 (jsRound x)) = jsRound (max 0 (min 100 x)) := by
  rcases le_total x 0 with hx0 | hx0
  · have h1 : min 100 x = x := min_eq_right (by linarith)
    have h2 : max 0 x = 0 := max_eq_left hx0
    have h3 : jsRound x ≤ 0 := jsRound_zero ▸ jsRound_mono hx0
    rw [h1, h2, jsRound_zero, min_eq_right (by linarith : jsRound x ≤ 100),
      max_eq_left h3]
  · rcases le_total x 100 with hx1 | hx1
    · have h1 : min 100 x = x := min_eq_right hx1
      have h2 : max 0 x = x := max_eq_right hx0
      have h3 : 0 ≤ jsRound x := jsRound_zero ▸ jsRound_mono hx0
      have h4 : jsRound x ≤ 100 := jsRound_hundred ▸ jsRound_mono hx1
      rw [h1, h2, min_eq_right h4, max_eq_right h3]
    · have h1 : min 100 x = 100 := min_eq_left hx1
      have h2 : max 0 (100 : ℚ) = 100 := max_eq_right (by norm_num)
      have h3 : 100 ≤ jsRound x := jsRound_hundred ▸ jsRound_mono hx1
      rw [h1, h2, jsRound_hundred, min_eq_left h3, max_eq_right (by norm_num)]

theorem preWeather_eq (cw : ℚ) (hour day : ℕ) (attraction : AttractionRow) :
    preWeather cw hour day attraction =
      cw * timeFactor hour * dayFactor day * thrillFactor attraction := by
  simp only [preWeather, timeFactor, dayFactor, thrillFactor]
  split_ifs <;> ring

theorem preBlend_none (cw : ℚ) (hour day : ℕ) (attraction : AttractionRow) :
    preBlend cw hour day none attraction =
      (cw * timeFactor hour * dayFactor day * thrillFactor attraction, 8/10) := by
  simp only [preBlend, preWeather_eq]

theorem preBlend_some (cw : ℚ) (hour day : ℕ) (w : Weather) (attraction : AttractionRow) :
    preBlend cw hour day (some w) attraction =
      (cw * timeFactor hour * dayFactor day * thrillFactor attraction *
         tempPredFactor w attraction * rainPredFactor w attraction,
       8/10 * rainConfFactor w attraction) := by
  simp only [preBlend, preWeather_eq, tempPredFactor, rainPredFactor,
    rainConfFactor, Prod.mk.injEq]
  split_ifs <;>
    first
      | rfl
      | ring
      | exact ⟨by ring, by ring⟩
      | exact ⟨by ring, by trivial⟩
      | exact ⟨by trivial, by ring⟩

theorem timeFactor_pos (hour : ℕ) : 0 < timeFactor hour := by
  unfold timeFactor; split_ifs <;> norm_num

theorem dayFactor_pos (d : ℕ) : 0 < dayFactor d := by
  unfold dayFactor; split_ifs <;> norm_num

theorem thrillFactor_pos (attraction : AttractionRow) : 0 < thrillFactor attraction := by
  unfold thrillFactor; split_ifs <;> norm_num

theorem tempPredFactor_pos (w : Weather) (attraction : AttractionRow) :
    0 < tempPredFactor w attraction := by
  unfold tempPredFactor; split_ifs <;> norm_num

/-- The historical-blend step is strictly monotone in the incoming
prediction component. -/
theorem applyHistory_fst_lt {p q : ℚ × ℚ} (h : p.1 < q.1)
    (history : List Observation) (hour : ℕ) :
    (applyHistory p history hour).1 < (applyHistory q history hour).1 := by
  simp only [applyHistory]
  split_ifs with h1 h2
  · simpa using by linarith
  · exact h
  · exact h

/-- The blend branch of the history step: nonempty history with at least
one matching observation. -/
theorem applyHistory_blend (pc : ℚ × ℚ) (history : List Observation) (hour : ℕ)
    (hne : history ≠ []) (hmatch : similarTimes history hour ≠ []) :
    applyHistory pc history hour =
      (pc.1 * (7/10) +
        ((similarTimes history hour).map Observation.waitMinutes).sum /
          ((similarTimes history hour).length : ℚ) * (3/10),
       pc.2 * (11/10)) := by
  simp only [applyHistory]
  rw [if_pos (List.length_pos.mpr hne), if_pos (List.length_pos.mpr hmatch)]

/-- The no-match branch of the history step: nonempty history, no matching
observation. -/
theorem applyHistory_nomatch (pc : ℚ × ℚ) (history : List Observation) (hour : ℕ)
    (hne : history ≠ []) (hmatch : similarTimes history hour = []) :
    applyHistory pc history hour = (pc.1, pc.2 * (9/10)) := by
  simp only [applyHistory]
  rw [if_pos (List.length_pos.mpr hne), if_neg (by simp [hmatch])]

/-- The empty-history branch of the history step: no adjustment at all. -/
theorem applyHistory_nil (pc : ℚ × ℚ) (hour : ℕ) :
    applyHistory pc [] hour = pc := by
  simp [applyHistory]

/-- The rounded, clamped prediction is an integer between 0 and 180. -/
theorem clamp180_bounds (x : ℚ) :
    (∃ k : ℤ, max 0 (min 180 (jsRound x)) = (k : ℚ)) ∧
    0 ≤ max 0 (min 180 (jsRound x)) ∧ max 0 (min 180 (jsRound x)) ≤ 180 := by
  refine ⟨⟨max 0 (min 180 ⌊x + 1/2⌋), ?_⟩, le_max_left _ _,
    max_le (by norm_num) (min_le_left _ _)⟩
  unfold jsRound
  push_cast
  rfl

/-- The clamped, two-decimal-rounded confidence lies in `[0.3, 1]`. -/
theorem conf_bounds (c : ℚ) :
    3/10 ≤ jsRound2 (max (3/10) (min 1 c)) ∧ jsRound2 (max (3/10) (min 1 c)) ≤ 1 := by
  have hd1 : 3/10 ≤ max (3/10) (min 1 c) := le_max_left _ _
  have hd2 : max (3/10) (min 1 c) ≤ 1 := max_le (by norm_num) (min_le_left _ _)
  unfold jsRound2
  constructor
  · have h30 : (30 : ℤ) ≤ ⌊max (3/10) (min 1 c) * 100 + 1/2⌋ := by
      rw [Int.le_floor]
      push_cast
      linarith
    have : (30 : ℚ) ≤ (⌊max (3/10) (min 1 c) * 100 + 1/2⌋ : ℚ) := by exact_mod_cast h30
    linarith
  · have h100 : ⌊max (3/10) (min 1 c) * 100 + 1/2⌋ ≤ 100 := by
      rw [← Int.lt_add_one_iff, Int.floor_lt]
      push_cast
      linarith
    have : (⌊max (3/10) (min 1 c) * 100 + 1/2⌋ : ℚ) ≤ 100 := by exact_mod_cast h100
    linarith

/-- `predictWaitTime` written in terms of `predictRaw` and the clamps. -/
theorem predictWaitTime_eq (cw : ℚ) (hour day : ℕ) (history : List Observation)
    (weather : Option Weather) (attraction : AttractionRow) (U : ℚ) :
    predictWaitTime cw hour day history weather attraction U =
      (max 0 (min 180 (jsRound
          ((predictRaw cw hour day history weather attraction).1 *
            (1 + (U - 1/2) * (1/10))))),
       jsRound2 (max (3/10)
          (min 1 (predictRaw cw hour day history weather attraction).2))) := rfl

/-! ### Claim theorems -/

/-- Claim C9: the comfort index starts at 100, subtracts `2·|75 − tempF|`
when the Fahrenheit temperature is outside `[60,90]`, subtracts
`0.5·|50 − humidity|` when humidity is outside `[30,70]`, multiplies by
`max(0.9, 1 − 0.02·windSpeed)` when wind speed > 5, and clamps/rounds to an
integer in `[0,100]` (`calculateComfortIndex` agrees pointwise with the
spec-side formula `comfortIndexSpec`); it returns exactly 100 at 75 °F
(215/9 °C), 50 % humidity and no wind, and a strictly smaller value at
95 °F (35 °C), 50 % humidity, no wind. -/
theorem calculateComfortIndex_conformance :
    (∀ t h w, calculateComfortIndex t h w = comfortIndexSpec t h w) ∧
    calculateComfortIndex (215/9) 50 0 = 100 ∧
    calculateComfortIndex 35 50 0 < calculateComfortIndex (215/9) 50 0 := by
  refine ⟨fun t h w => ?_, ?_, ?_⟩
  · simp only [calculateComfortIndex, comfortIndexSpec, not_and_or, not_le]
    rw [clamp_jsRound, show w * (2/100) = (2/100) * w from mul_comm _ _]
    congr 1
    congr 1
    congr 1
    split_ifs <;> ring
  · norm_num [calculateComfortIndex, jsRound]
  · norm_num [calculateComfortIndex, jsRound]

/-- Claim C3: for every valid input (current wait ≥ 0, any history, any
weather snapshot or its absence, any attraction attributes, any random draw
in `[0,1)`, any projected hour/day), the per-window result of
`predictWaitTime` has an integer predicted wait in `[0,180]` and a
confidence in `[0.3,1.0]`. -/
theorem predictWaitTime_bounds (cw : ℚ) (hour day : ℕ) (history : List Observation)
    (weather : Option Weather) (attraction : AttractionRow) (U : ℚ)
    (hcw : 0 ≤ cw) (hU0 : 0 ≤ U) (hU1 : U < 1) :
    (∃ k : ℤ, (predictWaitTime cw hour day history weather attraction U).1 = (k : ℚ)) ∧
    0 ≤ (predictWaitTime cw hour day history weather attraction U).1 ∧
    (predictWaitTime cw hour day history weather attraction U).1 ≤ 180 ∧
    3/10 ≤ (predictWaitTime cw hour day history weather attraction U).2 ∧
    (predictWaitTime cw hour day history weather attraction U).2 ≤ 1 := by
  rw [predictWaitTime_eq]
  obtain ⟨hk, h0, h180⟩ := clamp180_bounds
    ((predictRaw cw hour day history weather attraction).1 * (1 + (U - 1/2) * (1/10)))
  obtain ⟨hc1, hc2⟩ := conf_bounds (predictRaw cw hour day history weather attraction).2
  exact ⟨hk, h0, h180, hc1, hc2⟩

/-- Witness for claim C3 at a concrete input. -/
theorem predictWaitTime_bounds_witness :
    ((0:ℚ) ≤ 40 ∧ (0:ℚ) ≤ 1/2 ∧ (1/2:ℚ) < 1) ∧
    ((∃ k : ℤ, (predictWaitTime 40 13 3 [] none attrA (1/2)).1 = (k : ℚ)) ∧
     0 ≤ (predictWaitTime 40 13 3 [] none attrA (1/2)).1 ∧
     (predictWaitTime 40 13 3 [] none attrA (1/2)).1 ≤ 180 ∧
     3/10 ≤ (predictWaitTime 40 13 3 [] none attrA (1/2)).2 ∧
     (predictWaitTime 40 13 3 [] none attrA (1/2)).2 ≤ 1) :=
  ⟨⟨by norm_num, by norm_num, by norm_num⟩,
   predictWaitTime_bounds 40 13 3 [] none attrA (1/2)
     (by norm_num) (by norm_num) (by norm_num)⟩

/-- Claim C10: the ±1-hour historical match compares raw hour numbers with
an absolute difference and does not wrap around midnight: an observation at
hour 23 is never selected when the projected hour is 0, and one at hour 0
is never selected when the projected hour is 23. -/
theorem similarTimes_no_midnight_wrap (history : List Observation) (obs : Observation)
    (hmem : obs ∈ history) :
    (obs.hour = 23 → obs ∉ similarTimes history 0) ∧
    (obs.hour = 0 → obs ∉ similarTimes history 23) := by
  refine ⟨fun hh hin => ?_, fun hh hin => ?_⟩
  · have h2 := (List.mem_filter.mp hin).2
    rw [hh] at h2
    norm_num at h2
  · have h2 := (List.mem_filter.mp hin).2
    rw [hh] at h2
    norm_num at h2

/-- Witness for claim C10 at a concrete history. -/
theorem similarTimes_no_midnight_wrap_witness :
    ((⟨23, 10⟩ : Observation) ∈ [(⟨23, 10⟩ : Observation)]) ∧
    (((⟨23, 10⟩ : Observation).hour = 23 →
        (⟨23, 10⟩ : Observation) ∉ similarTimes [⟨23, 10⟩] 0) ∧
     ((⟨23, 10⟩ : Observation).hour = 0 →
        (⟨23, 10⟩ : Observation) ∉ similarTimes [⟨23, 10⟩] 23)) :=
  ⟨List.mem_singleton_self _,
   similarTimes_no_midnight_wrap [⟨23, 10⟩] ⟨23, 10⟩ (List.mem_singleton_self _)⟩

/-- Counterexample to claim C4: with an empty history the code skips the
whole historical block, so the reported confidence stays 0.8 — it is not
multiplied by 0.9 as the claim states for the no-matching-observation case
(which the empty history satisfies vacuously). -/
theorem predictWaitTime_empty_history_confidence :
    (predictWaitTime 40 13 3 [] none attrA (1/2)).2 = 8/10 ∧
    ((8/10 : ℚ) ≠ (8/10) * (9/10)) := by
  constructor
  · rw [predictWaitTime_eq,
      show predictRaw 40 13 3 [] none attrA = preBlend 40 13 3 none attrA from
        applyHistory_nil _ _,
      preBlend_none]
    norm_num [jsRound2, timeFactor, dayFactor, thrillFactor, jsOr, attrA,
      min_def, max_def]
  · norm_num

/-- Claim C4 (amended): historical blending in `predictWaitTime` — when the
history is nonempty and at least one observation lies within ±1 hour of the
projected hour, the base is replaced by `0.7·base + 0.3·(mean wait of those
observations)` and the confidence is multiplied by 1.1; when the history is
nonempty but no observation lies within ±1 hour, the confidence is
multiplied by 0.9 and no blending occurs; when the history is empty neither
branch runs and the confidence is unchanged. -/
theorem predictRaw_blend_cases (cw : ℚ) (hour day : ℕ) (history : List Observation)
    (weather : Option Weather) (attraction : AttractionRow) :
    (history ≠ [] → similarTimes history hour ≠ [] →
      predictRaw cw hour day history weather attraction =
        ((preBlend cw hour day weather attraction).1 * (7/10) +
          ((similarTimes history hour).map Observation.waitMinutes).sum /
            ((similarTimes history hour).length : ℚ) * (3/10),
         (preBlend cw hour day weather attraction).2 * (11/10))) ∧
    (history ≠ [] → similarTimes history hour = [] →
      predictRaw cw hour day history weather attraction =
        ((preBlend cw hour day weather attraction).1,
         (preBlend cw hour day weather attraction).2 * (9/10))) ∧
    (history = [] →
      predictRaw cw hour day history weather attraction =
        preBlend cw hour day weather attraction) := by
  refine ⟨fun h1 h2 => applyHistory_blend _ _ _ h1 h2,
    fun h1 h2 => applyHistory_nomatch _ _ _ h1 h2, fun h => ?_⟩
  rw [h]
  exact applyHistory_nil _ _

/-- Witness for claim C4 (amended) at a concrete input: one observation at
hour 3, projected hour 13 (no match, nonempty history). -/
theorem predictRaw_blend_cases_witness :
    (([⟨3, 50⟩] : List Observation) ≠ [] ∧ similarTimes [⟨3, 50⟩] 13 = []) ∧
    predictRaw 40 13 3 [⟨3, 50⟩] none attrA =
      ((preBlend 40 13 3 none attrA).1, (preBlend 40 13 3 none attrA).2 * (9/10)) :=
  ⟨⟨List.cons_ne_nil _ _, by decide⟩,
   (predictRaw_blend_cases 40 13 3 [⟨3, 50⟩] none attrA).2.1
     (List.cons_ne_nil _ _) (by decide)⟩

/-- Counterexample to claim C5: the empty history satisfies "no historical
observation within ±1 hour of the projected hour", yet the reported
confidence is 0.8, not the claimed 0.72. -/
theorem predictWaitTime_example_empty_history :
    (predictWaitTime 40 13 3 [] none attrA 0).2 = 8/10 ∧ ((8/10 : ℚ) ≠ 72/100) := by
  constructor
  · rw [predictWaitTime_eq,
      show predictRaw 40 13 3 [] none attrA = preBlend 40 13 3 none attrA from
        applyHistory_nil _ _,
      preBlend_none]
    norm_num [jsRound2, timeFactor, dayFactor, thrillFactor, jsOr, attrA,
      min_def, max_def]
  · norm_num

/-- Claim C5 (amended to a nonempty history with no matching hour): for an
attraction with current wait 40, thrill level 5, type roller_coaster,
weather absent, projected hour 13 on a weekday, and a nonempty history none
of whose observations lie within ±1 hour of hour 13: the pre-blend base is
40×1.3×1.1 = 57.2, the reported confidence is 0.72, and for every jitter
draw `U ∈ [0,1)` the final predicted wait lies in `{54,…,60}`. -/
theorem predictWaitTime_example_no_matching_hour (history : List Observation)
    (day : ℕ) (U : ℚ) (hne : history ≠ []) (hmatch : similarTimes history 13 = [])
    (hday : ¬(day = 0 ∨ day = 6)) (hU0 : 0 ≤ U) (hU1 : U < 1) :
    (preBlend 40 13 day none attrA).1 = 286/5 ∧
    (predictWaitTime 40 13 day history none attrA U).2 = 72/100 ∧
    54 ≤ (predictWaitTime 40 13 day history none attrA U).1 ∧
    (predictWaitTime 40 13 day history none attrA U).1 ≤ 60 := by
  have ht : timeFactor 13 = 13/10 := by norm_num [timeFactor]
  have hd : dayFactor day = 1 := by unfold dayFactor; rw [if_neg hday]
  have hth : thrillFactor attrA = 11/10 := by norm_num [thrillFactor, jsOr, attrA]
  have hpre : preBlend 40 13 day none attrA = (286/5, 8/10) := by
    rw [preBlend_none, ht, hd, hth]
    norm_num
  have hraw : predictRaw 40 13 day history none attrA = (286/5, 72/100) := by
    calc predictRaw 40 13 day history none attrA
        = ((preBlend 40 13 day none attrA).1,
           (preBlend 40 13 day none attrA).2 * (9/10)) :=
          applyHistory_nomatch _ _ _ hne hmatch
      _ = (286/5, 72/100) := by rw [hpre]; norm_num
  have hjlow : (54 : ℚ) ≤ jsRound (286/5 * (1 + (U - 1/2) * (1/10))) := by
    unfold jsRound
    have h54 : (54 : ℤ) ≤ ⌊286/5 * (1 + (U - 1/2) * (1/10)) + 1/2⌋ := by
      rw [Int.le_floor]
      push_cast
      nlinarith
    exact_mod_cast h54
  have hjup : jsRound (286/5 * (1 + (U - 1/2) * (1/10))) ≤ 60 := by
    unfold jsRound
    have h60 : ⌊286/5 * (1 + (U - 1/2) * (1/10)) + 1/2⌋ ≤ 60 := by
      rw [← Int.lt_add_one_iff, Int.floor_lt]
      push_cast
      nlinarith
    exact_mod_cast h60
  refine ⟨by rw [hpre], ?_, ?_, ?_⟩
  · rw [predictWaitTime_eq, hraw]
    norm_num [jsRound2, min_def, max_def]
  · rw [predictWaitTime_eq, hraw]
    dsimp only
    rw [min_eq_right (le_trans hjup (by norm_num))]
    exact le_trans hjlow (le_max_right _ _)
  · rw [predictWaitTime_eq, hraw]
    dsimp only
    exact max_le (by norm_num) (le_trans (min_le_right _ _) hjup)

/-- Witness for claim C5 (amended) at a concrete input. -/
theorem predictWaitTime_example_no_matching_hour_witness :
    (([⟨3, 50⟩] : List Observation) ≠ [] ∧ similarTimes [⟨3, 50⟩] 13 = [] ∧
      ¬((3:ℕ) = 0 ∨ (3:ℕ) = 6) ∧ (0:ℚ) ≤ 1/2 ∧ (1/2:ℚ) < 1) ∧
    ((preBlend 40 13 3 none attrA).1 = 286/5 ∧
     (predictWaitTime 40 13 3 [⟨3, 50⟩] none attrA (1/2)).2 = 72/100 ∧
     54 ≤ (predictWaitTime 40 13 3 [⟨3, 50⟩] none attrA (1/2)).1 ∧
     (predictWaitTime 40 13 3 [⟨3, 50⟩] none attrA (1/2)).1 ≤ 60) :=
  ⟨⟨List.cons_ne_nil _ _, by decide, by decide, by norm_num, by norm_num⟩,
   predictWaitTime_example_no_matching_hour [⟨3, 50⟩] 3 (1/2)
     (List.cons_ne_nil _ _) (by decide) (by decide) (by norm_num) (by norm_num)⟩

/-- Any row produced by the alternatives query comes from the table and
satisfies all four filter conditions. -/
theorem mem_alternativeRows {db : List AttractionRow} {parkId ty : String}
    {currentWait : ℚ} {r : AttractionRow}
    (hr : r ∈ alternativeRows db parkId ty currentWait) :
    r ∈ db ∧ r.parkId = parkId ∧ r.ty = ty ∧ r.currentStatus = "open" ∧
      ∃ wt, r.waitTime = some wt ∧ wt < currentWait := by
  unfold alternativeRows at hr
  have h1 := List.take_subset _ _ hr
  have h2 := (List.perm_insertionSort waitLe _).mem_iff.mp h1
  have h3 := List.mem_filter.mp h2
  refine ⟨h3.1, ?_⟩
  have hp := h3.2
  simp only [Bool.and_eq_true, decide_eq_true_eq] at hp
  obtain ⟨⟨⟨hpark, hty⟩, hstat⟩, hwt⟩ := hp
  refine ⟨hpark, hty, hstat, ?_⟩
  cases hw : r.waitTime with
  | none => rw [hw] at hwt; simp at hwt
  | some wt =>
    rw [hw] at hwt
    simp only [decide_eq_true_eq] at hwt
    exact ⟨wt, rfl, hwt⟩

/-- Claim C8: the alternative-attraction lookup returns at most 3
identifiers, each belonging to a row of the table that is open, in the same
park, of the same type, and with current wait strictly below the queried
wait; the underlying rows are sorted ascending by wait; the queried
attraction itself (whose rows carry exactly the queried wait) is never
returned; and the result is a pure function of the underlying data. -/
theorem findAlternativeAttractions_spec (db : List AttractionRow) (parkId ty : String)
    (currentWait : ℚ) (qid : String)
    (hq : ∀ r ∈ db, r.id = qid → r.waitTime = some currentWait) :
    (findAlternativeAttractions db parkId ty currentWait).length ≤ 3 ∧
    (∀ i ∈ findAlternativeAttractions db parkId ty currentWait,
      ∃ r ∈ db, r.id = i ∧ r.parkId = parkId ∧ r.ty = ty ∧
        r.currentStatus = "open" ∧ ∃ wt, r.waitTime = some wt ∧ wt < currentWait) ∧
    (alternativeRows db parkId ty currentWait).Sorted waitLe ∧
    qid ∉ findAlternativeAttractions db parkId ty currentWait := by
  have hmemmap : ∀ i ∈ findAlternativeAttractions db parkId ty currentWait,
      ∃ r ∈ db, r.id = i ∧ r.parkId = parkId ∧ r.ty = ty ∧
        r.currentStatus = "open" ∧ ∃ wt, r.waitTime = some wt ∧ wt < currentWait := by
    intro i hi
    obtain ⟨r, hr, hid⟩ := List.mem_map.mp hi
    obtain ⟨hdb, hpark, hty, hstat, wt, hwt, hlt⟩ := mem_alternativeRows hr
    exact ⟨r, hdb, hid, hpark, hty, hstat, wt, hwt, hlt⟩
  refine ⟨?_, hmemmap, ?_, ?_⟩
  · unfold findAlternativeAttractions alternativeRows
    rw [List.length_map]
    exact List.length_take_le 3 _
  · exact List.Pairwise.sublist (List.take_sublist 3 _)
      (List.sorted_insertionSort waitLe _)
  · intro hin
    obtain ⟨r, hdb, hid, _, _, _, wt, hwt, hlt⟩ := hmemmap qid hin
    have h1 : r.waitTime = some currentWait := hq r hdb hid
    rw [h1] at hwt
    injection hwt with h2
    rw [← h2] at hlt
    exact lt_irrefl _ hlt

/-- Witness for claim C8 on a concrete attractions table. -/
theorem findAlternativeAttractions_spec_witness :
    (∀ r ∈ dbEx, r.id = "q" → r.waitTime = some 40) ∧
    ((findAlternativeAttractions dbEx "p1" "roller_coaster" 40).length ≤ 3 ∧
     (∀ i ∈ findAlternativeAttractions dbEx "p1" "roller_coaster" 40,
       ∃ r ∈ dbEx, r.id = i ∧ r.parkId = "p1" ∧ r.ty = "roller_coaster" ∧
         r.currentStatus = "open" ∧ ∃ wt, r.waitTime = some wt ∧ wt < 40) ∧
     (alternativeRows dbEx "p1" "roller_coaster" 40).Sorted waitLe ∧
     "q" ∉ findAlternativeAttractions dbEx "p1" "roller_coaster" 40) :=
  ⟨by decide, findAlternativeAttractions_spec dbEx "p1" "roller_coaster" 40 "q"
    (by decide)⟩

/-- Counterexample to claim C7: with current wait 0 every multiplier chain
collapses to 0, so introducing precipitation 1 (> 0.5) for a water-ride
attraction leaves the pre-jitter prediction unchanged instead of strictly
decreasing it. -/
theorem predictRaw_precipitation_zero_wait :
    (predictRaw 0 13 3 [] (some ⟨some 25, some 1⟩) waterAttr).1 =
    (predictRaw 0 13 3 [] (some ⟨some 25, some 0⟩) waterAttr).1 := by
  rw [show predictRaw 0 13 3 [] (some ⟨some 25, some 1⟩) waterAttr =
      preBlend 0 13 3 (some ⟨some 25, some 1⟩) waterAttr from applyHistory_nil _ _,
    show predictRaw 0 13 3 [] (some ⟨some 25, some 0⟩) waterAttr =
      preBlend 0 13 3 (some ⟨some 25, some 0⟩) waterAttr from applyHistory_nil _ _,
    preBlend_some, preBlend_some]
  norm_num

/-- Claim C7 (amended with a positive current wait): holding everything
else, the projected time and the jitter draw equal, a weather snapshot with
precipitation > 0.5 strictly decreases the pre-jitter prediction of a
non-dark-ride, non-show attraction (×0.6 rule) relative to the same
snapshot with zero precipitation, and strictly increases it for a dark-ride
or show attraction (×1.5 rule). -/
theorem predictRaw_precipitation_monotone (cw : ℚ) (hour day : ℕ)
    (history : List Observation) (temp : Option ℚ) (pr : ℚ)
    (attraction : AttractionRow) (hcw : 0 < cw) (hpr : 1/2 < pr) :
    (attraction.ty ≠ "dark_ride" → attraction.ty ≠ "show" →
      (predictRaw cw hour day history (some ⟨temp, some pr⟩) attraction).1 <
      (predictRaw cw hour day history (some ⟨temp, some 0⟩) attraction).1) ∧
    (attraction.ty = "dark_ride" ∨ attraction.ty = "show" →
      (predictRaw cw hour day history (some ⟨temp, some 0⟩) attraction).1 <
      (predictRaw cw hour day history (some ⟨temp, some pr⟩) attraction).1) := by
  have htemp : tempPredFactor ⟨temp, some pr⟩ attraction =
      tempPredFactor ⟨temp, some 0⟩ attraction := rfl
  have hq : 0 < cw * timeFactor hour * dayFactor day * thrillFactor attraction *
      tempPredFactor ⟨temp, some 0⟩ attraction :=
    mul_pos (mul_pos (mul_pos (mul_pos hcw (timeFactor_pos hour))
      (dayFactor_pos day)) (thrillFactor_pos attraction)) (tempPredFactor_pos _ _)
  have hprne : jsOr (some pr) 0 = pr := by
    show (if pr = 0 then (0:ℚ) else pr) = pr
    rw [if_neg (by linarith : ¬ pr = 0)]
  have hdry : rainPredFactor ⟨temp, some 0⟩ attraction = 1 := by
    show (if (0:ℚ) < jsOr (some 0) 0 then _ else 1) = 1
    rw [if_neg (by norm_num [jsOr])]
  have hdry1 : (preBlend cw hour day (some ⟨temp, some 0⟩) attraction).1 =
      cw * timeFactor hour * dayFactor day * thrillFactor attraction *
        tempPredFactor ⟨temp, some 0⟩ attraction := by
    rw [preBlend_some]
    dsimp only
    rw [hdry, mul_one]
  constructor
  · intro h1 h2
    have hwet : rainPredFactor ⟨temp, some pr⟩ attraction = 6/10 := by
      show (if (0:ℚ) < jsOr (some pr) 0 then _ else 1) = 6/10
      rw [hprne, if_pos (by linarith : (0:ℚ) < pr),
        if_neg (not_or.mpr ⟨h1, h2⟩)]
    have hwet1 : (preBlend cw hour day (some ⟨temp, some pr⟩) attraction).1 =
        cw * timeFactor hour * dayFactor day * thrillFactor attraction *
          tempPredFactor ⟨temp, some 0⟩ attraction * (6/10) := by
      rw [preBlend_some]
      dsimp only
      rw [hwet, htemp]
    have hlt : (preBlend cw hour day (some ⟨temp, some pr⟩) attraction).1 <
        (preBlend cw hour day (some ⟨temp, some 0⟩) attraction).1 := by
      rw [hwet1, hdry1]
      nlinarith
    exact applyHistory_fst_lt hlt history hour
  · intro hty
    have hwet : rainPredFactor ⟨temp, some pr⟩ attraction = 15/10 := by
      show (if (0:ℚ) < jsOr (some pr) 0 then _ else 1) = 15/10
      rw [hprne, if_pos (by linarith : (0:ℚ) < pr), if_pos hty]
    have hwet1 : (preBlend cw hour day (some ⟨temp, some pr⟩) attraction).1 =
        cw * timeFactor hour * dayFactor day * thrillFactor attraction *
          tempPredFactor ⟨temp, some 0⟩ attraction * (15/10) := by
      rw [preBlend_some]
      dsimp only
      rw [hwet, htemp]
    have hlt : (preBlend cw hour day (some ⟨temp, some 0⟩) attraction).1 <
        (preBlend cw hour day (some ⟨temp, some pr⟩) attraction).1 := by
      rw [hwet1, hdry1]
      nlinarith
    exact applyHistory_fst_lt hlt history hour

/-- Witness for claim C7 (amended) at a concrete input. -/
theorem predictRaw_precipitation_monotone_witness :
    ((0:ℚ) < 40 ∧ (1/2:ℚ) < 1) ∧
    ((waterAttr.ty ≠ "dark_ride" → waterAttr.ty ≠ "show" →
       (predictRaw 40 13 3 [] (some ⟨some 25, some 1⟩) waterAttr).1 <
       (predictRaw 40 13 3 [] (some ⟨some 25, some 0⟩) waterAttr).1) ∧
     (waterAttr.ty = "dark_ride" ∨ waterAttr.ty = "show" →
       (predictRaw 40 13 3 [] (some ⟨some 25, some 0⟩) waterAttr).1 <
       (predictRaw 40 13 3 [] (some ⟨some 25, some 1⟩) waterAttr).1)) :=
  ⟨⟨by norm_num, by norm_num⟩,
   predictRaw_precipitation_monotone 40 13 3 [] (some 25) 1 waterAttr
     (by norm_num) (by norm_num)⟩

/-- Counterexample to claim C1: when the historical-observations read
reports an error, `generateWaitTimePrediction` aborts the estimate and
returns no prediction instead of substituting an empty history. -/
theorem generateWaitTimePrediction_history_error_aborts :
    generateWaitTimePrediction (some attrA) (Except.error ()) none [15]
      (fun _ => (13, 3)) 13 3 (fun _ => 1/2) [] = none := rfl

/-- Claim C1 (amended): a weather-lookup failure never aborts the estimate —
the engine treats the snapshot as absent and still produces a `Prediction` —
but a history-lookup failure does abort: the engine returns no prediction
for that attraction. -/
theorem generateWaitTimePrediction_upstream_failures (attraction : AttractionRow)
    (weatherRes : Option Weather) (histList : List Observation) (windows : List ℤ)
    (clock : ℤ → ℕ × ℕ) (nowHour nowDay : ℕ) (draw : ℤ → ℚ) (db : List AttractionRow) :
    generateWaitTimePrediction (some attraction) (Except.error ()) weatherRes windows
        clock nowHour nowDay draw db = none ∧
    (generateWaitTimePrediction (some attraction) (Except.ok histList) none windows
        clock nowHour nowDay draw db).isSome = true :=
  ⟨rfl, rfl⟩

/-- Counterexample to claim C2: a window list containing −5 is not
filtered — the output mapping still carries an entry keyed by −5. -/
theorem generateWaitTimePrediction_nonpositive_window_entry :
    (generateWaitTimePrediction (some attrA) (Except.ok []) none [-5, 15]
        (fun _ => (13, 3)) 13 3 (fun _ => 1/2) []).map
      (fun p => p.predictions.map Prod.fst) = some [-5, 15] := rfl

/-- Claim C2 (amended): no look-ahead window validation exists — every
requested window, including windows ≤ 0, is estimated, and the keys of the
output mapping are exactly the requested window list. -/
theorem generateWaitTimePrediction_windows_echoed (attraction : AttractionRow)
    (histList : List Observation) (weatherRes : Option Weather) (windows : List ℤ)
    (clock : ℤ → ℕ × ℕ) (nowHour nowDay : ℕ) (draw : ℤ → ℚ) (db : List AttractionRow) :
    (generateWaitTimePrediction (some attraction) (Except.ok histList) weatherRes
        windows clock nowHour nowDay draw db).map
      (fun p => p.predictions.map Prod.fst) = some windows := by
  simp only [generateWaitTimePrediction, Option.map_some', List.map_map]
  rw [Option.some.injEq]
  exact List.map_id'' (fun x => rfl) windows

/-- Claim C6: with the random draws fixed, two estimation calls with equal
inputs (attraction row, history, weather, windows, clock, current
hour/day, attractions table) produce equal outputs — equal per-window
predicted waits and confidences, equal factors, equal alternatives. In this
embedding every effect of the original code (wall clock, `Math.random()`,
database reads) is an explicit parameter, so determinism is congruence. -/
theorem generateWaitTimePrediction_deterministic
    (a₁ a₂ : Option AttractionRow) (h₁ h₂ : Except Unit (List Observation))
    (w₁ w₂ : Option Weather) (ws₁ ws₂ : List ℤ) (c₁ c₂ : ℤ → ℕ × ℕ)
    (nh₁ nh₂ nd₁ nd₂ : ℕ) (d₁ d₂ : ℤ → ℚ) (db₁ db₂ : List AttractionRow)
    (ea : a₁ = a₂) (eh : h₁ = h₂) (ew : w₁ = w₂) (ews : ws₁ = ws₂)
    (ec : c₁ = c₂) (enh : nh₁ = nh₂) (ond : nd₁ = nd₂) (ed : d₁ = d₂)
    (edb : db₁ = db₂) :
    generateWaitTimePrediction a₁ h₁ w₁ ws₁ c₁ nh₁ nd₁ d₁ db₁ =
    generateWaitTimePrediction a₂ h₂ w₂ ws₂ c₂ nh₂ nd₂ d₂ db₂ := by
  subst ea eh ew ews ec enh ond ed edb
  rfl

/-- Witness for claim C6 at a concrete pair of equal inputs. -/
theorem generateWaitTimePrediction_deterministic_witness :
    (some attrA = some attrA) ∧
    generateWaitTimePrediction (some attrA) (Except.ok []) none [15]
        (fun _ => (13, 3)) 13 3 (fun _ => 1/2) dbEx =
    generateWaitTimePrediction (some attrA) (Except.ok []) none [15]
        (fun _ => (13, 3)) 13 3 (fun _ => 1/2) dbEx :=
  ⟨rfl,
   generateWaitTimePrediction_deterministic (some attrA) (some attrA)
     (Except.ok []) (Except.ok []) none none [15] [15]
     (fun _ => (13, 3)) (fun _ => (13, 3)) 13 13 3 3
     (fun _ => 1/2) (fun _ => 1/2) dbEx dbEx
     rfl rfl rfl rfl rfl rfl rfl rfl rfl⟩

end ParkGenius
